import Mathlib

/-!
Verification of the execution-dispatch core of the KyberNetwork/graph-node
repository: the per-data-source runtime host (`runtime/wasm/src/host.rs`),
its request/response dispatch protocol, gas/metrics accounting, host
equality and offchain completion tracking, and the bus initializer
(`node/src/bus_initializer.rs`).

The Rust code is shallowly embedded: interior mutability (metrics
collector, log sink, the offchain data source's `done_at` cell) becomes
explicit state passing, the async send/receive on the worker channel
becomes an environment value describing the channel outcomes, and
`anyhow`-style error contexts become an explicit list of context strings.
Wall-clock time is an abstract `Nat` supplied by the environment.
-/

namespace GraphNode

/-- Gas: execution cost counter (`graph::runtime::gas::Gas`), a non-negative
counter; only its value and `Gas::ZERO` matter to the host. -/
structure Gas where
  value : Nat
deriving DecidableEq, Repr

/-- The `Gas::ZERO` constant. -/
def Gas.ZERO : Gas := ⟨0⟩

/-- An `anyhow`-style error: a base cause plus a stack of context messages,
outermost context first.  `Result::context(msg)` pushes `msg`. -/
structure AnyError where
  contexts : List String
  cause : String
deriving DecidableEq, Repr

/-- The `anyhow::Context::context` method: wrap an error with an additional message. -/
def AnyError.addContext (msg : String) (e : AnyError) : AnyError :=
  ⟨msg :: e.contexts, e.cause⟩

/-- The type `graph::components::subgraph::MappingError`: a typed handler-level or
dispatch-level failure.  `From<anyhow::Error>` produces `unknown`. -/
inductive MappingError
  | possibleReorg (e : AnyError)
  | unknown (e : AnyError)
deriving DecidableEq, Repr

/-- The `From<anyhow::Error> for MappingError` conversion applied by `?`. -/
def MappingError.fromAnyError (e : AnyError) : MappingError :=
  MappingError.unknown e

/-- Outcome of `mapping_request_sender.send(...).compat().await`: either the
queue accepted the request, or the channel was closed (worker gone). -/
inductive SendOutcome
  | accepted
  | closed (cause : String)
deriving DecidableEq, Repr

/-- Outcome of awaiting the oneshot `result_receiver`: either the worker
wrote a response, or the sender was dropped without a value (`Canceled`). -/
inductive RecvOutcome (α : Type)
  | value (a : α)
  | canceled (cause : String)
deriving DecidableEq, Repr

/-- The worker's response type: `Result<(BlockState, Gas), MappingError>`. -/
abbrev WorkerResult (St : Type) := Except MappingError (St × Gas)

/-- Environment of one dispatch: what the channels do and how much wall
time elapses between the start timestamp and the response. -/
structure DispatchEnv (St : Type) where
  send : SendOutcome
  recv : RecvOutcome (WorkerResult St)
  elapsed : Nat

/-- One observation recorded to the `HostMetrics` collector.  The host calls
exactly one collector method, `observe_handler_execution_time`, so `metric`
names the method and `value` carries the elapsed-time argument. -/
structure Observation where
  metric : String
  handler : String
  value : Nat
deriving DecidableEq, Repr

/-- The metrics collector's recorded state, newest observation first. -/
structure HostMetricsState where
  observations : List Observation
deriving DecidableEq, Repr

/-- The call `HostMetrics::observe_handler_execution_time(duration, handler)`. -/
def HostMetricsState.observe_handler_execution_time
    (m : HostMetricsState) (duration : Nat) (handler : String) : HostMetricsState :=
  ⟨⟨"handler_execution_time", handler, duration⟩ :: m.observations⟩

/-- One "Done processing trigger" info-log entry with its structured fields
(`total_ms`, `handler`, `data_source`, `gas_used`). -/
structure DoneLogEntry where
  handler : String
  dataSource : String
  totalMs : Nat
  gasUsed : Nat
deriving DecidableEq, Repr

/-- The logger's recorded state: "Start processing trigger" trace entries
(handler, data source) and "Done processing trigger" info entries, newest
first. -/
structure LogState where
  startLogs : List (String × String)
  doneLogs : List DoneLogEntry
deriving DecidableEq, Repr

/-- Result of one dispatch: the value returned to the caller together with
the metrics-collector and logger states after the dispatch. -/
structure DispatchResult (St : Type) where
  ret : Except MappingError St
  metrics : HostMetricsState
  log : LogState

/-- Embedding of `RuntimeHost::send_mapping_request` (host.rs lines 163-225), with the
handler name and data-source name already resolved from the trigger and the
host.  Mirrors the source: emit the start trace; submit the request, a
closed queue becoming an error with context "Mapping terminated before
passing in trigger"; await the oneshot, a dropped channel becoming an error
with context "Mapping terminated before handling trigger"; on a response,
observe the handler execution time, log "Done processing trigger" with
`gas_used` taken from the response (zero when the response is an error),
and return the response with the gas component discarded. -/
def send_mapping_request {St : Type} (dsName handler : String)
    (env : DispatchEnv St) (metrics : HostMetricsState) (log : LogState) :
    DispatchResult St :=
  let log := { log with startLogs := (handler, dsName) :: log.startLogs }
  match env.send with
  | SendOutcome.closed cause =>
      { ret := Except.error (MappingError.fromAnyError
          (AnyError.addContext "Mapping terminated before passing in trigger" ⟨[], cause⟩))
        metrics := metrics
        log := log }
  | SendOutcome.accepted =>
      match env.recv with
      | RecvOutcome.canceled cause =>
          { ret := Except.error (MappingError.fromAnyError
              (AnyError.addContext "Mapping terminated before handling trigger" ⟨[], cause⟩))
            metrics := metrics
            log := log }
      | RecvOutcome.value result =>
          let metrics := metrics.observe_handler_execution_time env.elapsed handler
          let gas_used := match result with
            | Except.ok (_, gas) => gas
            | Except.error _ => Gas.ZERO
          let log := { log with
            doneLogs := ⟨handler, dsName, env.elapsed, gas_used.value⟩ :: log.doneLogs }
          { ret := result.map Prod.fst
            metrics := metrics
            log := log }

/-- Embedding of `RuntimeHost::process_mapping_trigger` (host.rs lines 243-261): a direct
delegation to `send_mapping_request`. -/
def process_mapping_trigger {St : Type} (dsName handler : String)
    (env : DispatchEnv St) (metrics : HostMetricsState) (log : LogState) :
    DispatchResult St :=
  send_mapping_request dsName handler env metrics log

/-! ## Data sources and the runtime host -/

/-- An onchain data source's declaration: its name, creation block, and the
blockchain-specific declaration the runtime adapter inspects (opaque here). -/
structure OnchainDataSource where
  name : String
  creation_block : Option Int
  declaration : Nat
deriving DecidableEq, Repr

/-- An offchain data source: its declaration (name, source, creation block)
plus the mutable `done_at` completion marker. -/
structure OffchainDataSource where
  name : String
  source : Nat
  creation_block : Option Int
  doneAt : Option Int
deriving DecidableEq, Repr

/-- Modelled from the spec: the offchain data source's `done_at()` getter
(`graph/src/data_source/offchain.rs` is not among the source files); it
reads the mutable "done at" block marker. -/
def OffchainDataSource.done_at (ds : OffchainDataSource) : Option Int :=
  ds.doneAt

/-- Modelled from the spec: the offchain data source's `set_done_at(block)`
setter; it overwrites the mutable "done at" block marker. -/
def OffchainDataSource.set_done_at (ds : OffchainDataSource) (block : Option Int) :
    OffchainDataSource :=
  { ds with doneAt := block }

/-- The type `graph::data_source::DataSource`: `Onchain` / `Offchain`. -/
inductive DataSource
  | onchain (ds : OnchainDataSource)
  | offchain (ds : OffchainDataSource)
deriving DecidableEq, Repr

/-- The accessor `DataSource::name`. -/
def DataSource.name : DataSource → String
  | DataSource.onchain ds => ds.name
  | DataSource.offchain ds => ds.name

/-- The accessor `DataSource::as_onchain`. -/
def DataSource.as_onchain : DataSource → Option OnchainDataSource
  | DataSource.onchain ds => some ds
  | DataSource.offchain _ => none

/-- The accessor `DataSource::creation_block`. -/
def DataSource.creation_block : DataSource → Option Int
  | DataSource.onchain ds => ds.creation_block
  | DataSource.offchain ds => ds.creation_block

/-- Modelled from the spec: `DataSource::is_duplicate_of`
(`graph/src/data_source/mod.rs` is not among the source files).  Per the
spec, two data sources are duplicates when their declarations coincide —
declared identity, not pointer identity and not execution state — so the
comparison reads the declared name and source fields and ignores the
mutable `done_at` completion marker. -/
def DataSource.is_duplicate_of : DataSource → DataSource → Bool
  | DataSource.onchain a, DataSource.onchain b =>
      a.name == b.name && a.declaration == b.declaration
  | DataSource.offchain a, DataSource.offchain b =>
      a.name == b.name && a.source == b.source
  | _, _ => false

/-- A host function exported to the sandbox (`graph::blockchain::HostFn`),
opaque to the host: only the list the adapter returns matters. -/
structure HostFn where
  name : String
deriving DecidableEq, Repr

/-- The capability table (`HostExports::new`): constructed from the builder's
shared services and the data source; its construction cannot fail.  Only the
fields the host threads through are retained. -/
structure HostExports where
  subgraph_id : String
  network_name : String
  bus_sender : Option Nat
deriving DecidableEq, Repr

/-- The `RuntimeHost` structure (host.rs lines 110-116): the per-data-source façade.  The
queue handle and metrics handle are opaque identifiers here. -/
structure RuntimeHost where
  host_fns : List HostFn
  data_source : DataSource
  mapping_request_sender : Nat
  host_exports : HostExports
  metrics : Nat
deriving DecidableEq, Repr

/-- Embedding of `RuntimeHost::new` (host.rs lines 122-159): build the capability table,
then compute the host-function set — `data_source.as_onchain().map(|ds|
runtime_adapter.host_fns(ds)).transpose()?.unwrap_or_default()` — so an
offchain data source yields the empty set and an onchain one consults the
adapter, whose rejection aborts construction. -/
def RuntimeHost.new
    (host_fns_adapter : OnchainDataSource → Except String (List HostFn))
    (network_name : String) (subgraph_id : String)
    (data_source : DataSource)
    (mapping_request_sender : Nat) (metrics : Nat)
    (bus_sender : Option Nat) : Except String RuntimeHost :=
  let host_exports : HostExports := ⟨subgraph_id, network_name, bus_sender⟩
  let transposed : Except String (Option (List HostFn)) :=
    match (data_source.as_onchain).map host_fns_adapter with
    | none => Except.ok none
    | some (Except.ok fns) => Except.ok (some fns)
    | some (Except.error e) => Except.error e
  transposed.map fun fns =>
    { host_fns := fns.getD []
      data_source := data_source
      mapping_request_sender := mapping_request_sender
      host_exports := host_exports
      metrics := metrics }

/-- Embedding of `RuntimeHostBuilder::build` (host.rs lines 86-107): a direct delegation
to `RuntimeHost::new` with the builder's shared services. -/
def RuntimeHostBuilder.build
    (host_fns_adapter : OnchainDataSource → Except String (List HostFn))
    (bus_sender : Option Nat)
    (network_name : String) (subgraph_id : String)
    (data_source : DataSource)
    (mapping_request_sender : Nat) (metrics : Nat) : Except String RuntimeHost :=
  RuntimeHost.new host_fns_adapter network_name subgraph_id data_source
    mapping_request_sender metrics bus_sender

/-- The `impl PartialEq for RuntimeHost` (host.rs lines 284-288):
`self.data_source.is_duplicate_of(&other.data_source)`. -/
def RuntimeHost.eq (a b : RuntimeHost) : Bool :=
  a.data_source.is_duplicate_of b.data_source

/-- Embedding of `RuntimeHost::done_at` (host.rs lines 269-274). -/
def RuntimeHost.done_at (h : RuntimeHost) : Option Int :=
  match h.data_source with
  | DataSource.onchain _ => none
  | DataSource.offchain ds => ds.done_at

/-- Embedding of `RuntimeHost::set_done_at` (host.rs lines 276-281); the interior
mutation of the offchain data source becomes returning the updated host. -/
def RuntimeHost.set_done_at (h : RuntimeHost) (block : Option Int) : RuntimeHost :=
  match h.data_source with
  | DataSource.onchain _ => h
  | DataSource.offchain ds =>
      { h with data_source := DataSource.offchain (ds.set_done_at block) }

/-- Embedding of `RuntimeHost::creation_block_number` (host.rs lines 263-265). -/
def RuntimeHost.creation_block_number (h : RuntimeHost) : Option Int :=
  h.data_source.creation_block

/-- Embedding of `RuntimeHost::match_and_decode` (host.rs lines 234-241): a pure
delegation to `self.data_source.match_and_decode(trigger, block, logger)`.
The blockchain-specific matching rules are a parameter `matcher`. -/
def RuntimeHost.match_and_decode {Trigger Block TriggerWithHandler : Type}
    (matcher : DataSource → Trigger → Block → Except String (Option TriggerWithHandler))
    (h : RuntimeHost) (trigger : Trigger) (block : Block) :
    Except String (Option TriggerWithHandler) :=
  matcher h.data_source trigger block

/-! ## The sandbox worker loop -/

/-- Modelled from the spec: the Sandbox Worker loop (`crate::mapping`,
spawned by `spawn_module`, is not among the source files).  Per the spec it
consumes `MappingRequest` values strictly in submission order per queue,
executes each against the sandbox instance it solely owns — threading the
sandbox's mutable state — and writes exactly one response per request
before proceeding to the next.  `exec` is one handler execution on the
current sandbox state. -/
def workerRun {Sandbox Req Resp : Type}
    (exec : Sandbox → Req → Resp × Sandbox) :
    Sandbox → List Req → List Resp
  | _, [] => []
  | sb, r :: rs =>
      let (resp, sb') := exec sb r
      resp :: workerRun exec sb' rs

/-- Sandbox state after the worker has processed a list of requests in
order. -/
def workerStateAfter {Sandbox Req Resp : Type}
    (exec : Sandbox → Req → Resp × Sandbox) :
    Sandbox → List Req → Sandbox
  | sb, [] => sb
  | sb, r :: rs => workerStateAfter exec (exec sb r).2 rs

/-! ## Bus initializer -/

/-- The `BusScheme` enumeration of `node/src/bus_initializer.rs`. -/
inductive BusScheme
  | rabbitMQ
deriving DecidableEq, Repr

/-- A word character as matched by the regex class in a scheme: the source
uses a leading-run regex over the URI, matched here over ASCII as
alphanumeric-or-underscore. -/
def isWordChar (c : Char) : Bool :=
  c.isAlphanum || c == '_'

/-- The longest leading run of word characters of a string. -/
def leadingWordRun (s : String) : String :=
  ⟨s.data.takeWhile isWordChar⟩

/-- The leading-word-run regex applied with `find`: the longest leading run
of word characters, or `none` when the URI does not start with one. -/
def regexFindLeadingWordRun (s : String) : Option String :=
  let run := leadingWordRun s
  if run.isEmpty then none else some run

/-- Embedding of `BusInitializer::get_bus_scheme` (bus_initializer.rs lines 25-39):
`None` for a missing URI; otherwise match the leading word run of the URI
and recognize exactly `"amqp"` as `RabbitMQ`. -/
def get_bus_scheme (uri : Option String) : Option BusScheme :=
  match uri with
  | none => none
  | some text =>
      (regexFindLeadingWordRun text).bind fun m =>
        if m == "amqp" then some BusScheme.rabbitMQ else none

/-- The RabbitMQ bus value (`RabbitmqBus::new(uri, logger)`), retained only
as the connection URI it is constructed from. -/
structure RabbitmqBus where
  connection_uri : String
deriving DecidableEq, Repr

/-- Embedding of `BusInitializer::new` (bus_initializer.rs lines 13-24): construct the
RabbitMQ bus when the scheme is recognized, otherwise no bus.  The
`uri.unwrap()` in the source is only reached when the scheme matched, hence
when the URI is present; `Option.getD` stands in for it. -/
def BusInitializer.new (uri : Option String) : Option RabbitmqBus :=
  match get_bus_scheme uri with
  | some BusScheme.rabbitMQ => some ⟨uri.getD ""⟩
  | none => none

/-- A sample offchain runtime host used to instantiate witnesses. -/
def sampleOffchainHost : RuntimeHost :=
  { host_fns := []
    data_source := DataSource.offchain ⟨"fileDataSource", 11, none, none⟩
    mapping_request_sender := 0
    host_exports := ⟨"QmDeployment", "mainnet", none⟩
    metrics := 0 }

/-- A sample onchain runtime host used to instantiate witnesses. -/
def sampleOnchainHost : RuntimeHost :=
  { host_fns := [⟨"ethereum.call"⟩]
    data_source := DataSource.onchain ⟨"Contract", some 3, 7⟩
    mapping_request_sender := 1
    host_exports := ⟨"QmDeployment", "mainnet", some 2⟩
    metrics := 1 }

/-! ## Theorems -/

/-- C1: whenever the worker writes a response, `process_mapping_trigger`
returns exactly the worker's outcome with the gas component removed: a
response `Ok((state', gas))` yields `Ok(state')` and a response `Err(e)`
yields the original `MappingError` `e` unchanged — the gas value never
appears in the returned value, and the gas-as-zero fallback on failure
touches only the logged `gas_used`, never the returned error. -/
theorem processTrigger_returns_outcome_without_gas {St : Type}
    (dsName handler : String) (elapsed : Nat) (s : St) (g : Gas)
    (e : MappingError) (m : HostMetricsState) (l : LogState) :
    (process_mapping_trigger dsName handler
        (⟨SendOutcome.accepted, RecvOutcome.value (Except.ok (s, g)), elapsed⟩ : DispatchEnv St) m l).ret
      = Except.ok s
  ∧ (process_mapping_trigger dsName handler
        (⟨SendOutcome.accepted, RecvOutcome.value (Except.error e), elapsed⟩ : DispatchEnv St) m l).ret
      = Except.error e :=
  ⟨rfl, rfl⟩

/-- C2: the two termination failures are both returned to the caller as a
`MappingError` and differ only in the attached context message: a closed
queue at submission yields the context "Mapping terminated before passing
in trigger", and a response channel dropped without a value yields the
context "Mapping terminated before handling trigger".  Both cases return a
value (the embedding is a total function), so neither hangs nor panics. -/
theorem processTrigger_termination_errors {St : Type}
    (dsName handler sendCause recvCause : String) (elapsed : Nat)
    (recv : RecvOutcome (WorkerResult St)) (m : HostMetricsState) (l : LogState) :
    (process_mapping_trigger dsName handler
        (⟨SendOutcome.closed sendCause, recv, elapsed⟩ : DispatchEnv St) m l).ret
      = Except.error (MappingError.unknown
          ⟨["Mapping terminated before passing in trigger"], sendCause⟩)
  ∧ (process_mapping_trigger dsName handler
        (⟨SendOutcome.accepted, RecvOutcome.canceled recvCause, elapsed⟩ : DispatchEnv St) m l).ret
      = Except.error (MappingError.unknown
          ⟨["Mapping terminated before handling trigger"], recvCause⟩) :=
  ⟨rfl, rfl⟩

/-- C3 counterexample: dispatching handler `"handleTransfer"` against a
worker responding `Ok((state', Gas(42)))` (elapsed time 7) leaves the
metrics collector with no observation for `"handleTransfer"` carrying the
value 42 — the gas is never recorded to the metrics collector, only the
elapsed execution time is. -/
theorem metrics_records_no_gas_counterexample :
    ¬ ∃ obs ∈ (process_mapping_trigger "ds1" "handleTransfer"
        (⟨SendOutcome.accepted,
          RecvOutcome.value (Except.ok ((0 : Nat), ⟨42⟩)), 7⟩ : DispatchEnv Nat)
        ⟨[]⟩ ⟨[], []⟩).metrics.observations,
      obs.handler = "handleTransfer" ∧ obs.value = 42 := by
  decide

/-- C3 (amended): for every dispatch that receives a response,
`process_mapping_trigger` records exactly one observation to the metrics
collector — the elapsed wall time, keyed by the handler name — and reports
the gas used in the "Done processing trigger" log entry: the
worker-reported gas on success and zero on handler failure.  The gas is
not recorded to the metrics collector. -/
theorem processTrigger_metrics_time_and_logs_gas {St : Type}
    (dsName handler : String) (elapsed : Nat) (s : St) (g : Gas)
    (e : MappingError) (m : HostMetricsState) (l : LogState) :
    (process_mapping_trigger dsName handler
        (⟨SendOutcome.accepted, RecvOutcome.value (Except.ok (s, g)), elapsed⟩ : DispatchEnv St) m l).metrics.observations
      = ⟨"handler_execution_time", handler, elapsed⟩ :: m.observations
  ∧ (process_mapping_trigger dsName handler
        (⟨SendOutcome.accepted, RecvOutcome.value (Except.ok (s, g)), elapsed⟩ : DispatchEnv St) m l).log.doneLogs
      = ⟨handler, dsName, elapsed, g.value⟩ :: l.doneLogs
  ∧ (process_mapping_trigger dsName handler
        (⟨SendOutcome.accepted, RecvOutcome.value (Except.error e), elapsed⟩ : DispatchEnv St) m l).metrics.observations
      = ⟨"handler_execution_time", handler, elapsed⟩ :: m.observations
  ∧ (process_mapping_trigger dsName handler
        (⟨SendOutcome.accepted, RecvOutcome.value (Except.error e), elapsed⟩ : DispatchEnv St) m l).log.doneLogs
      = ⟨handler, dsName, elapsed, 0⟩ :: l.doneLogs :=
  ⟨rfl, rfl, rfl, rfl⟩

/-- C9: when `process_mapping_trigger` ends in a termination error — the
queue closed before submission, or the response channel dropped before a
result — no handler-execution-time observation is recorded to the metrics
collector and no "Done processing trigger" log entry is emitted: both
states are exactly as before the dispatch. -/
theorem processTrigger_termination_no_observation {St : Type}
    (dsName handler sendCause recvCause : String) (elapsed : Nat)
    (recv : RecvOutcome (WorkerResult St)) (m : HostMetricsState) (l : LogState) :
    ((process_mapping_trigger dsName handler
        (⟨SendOutcome.closed sendCause, recv, elapsed⟩ : DispatchEnv St) m l).metrics = m
      ∧ (process_mapping_trigger dsName handler
          (⟨SendOutcome.closed sendCause, recv, elapsed⟩ : DispatchEnv St) m l).log.doneLogs = l.doneLogs)
  ∧ ((process_mapping_trigger dsName handler
        (⟨SendOutcome.accepted, RecvOutcome.canceled recvCause, elapsed⟩ : DispatchEnv St) m l).metrics = m
      ∧ (process_mapping_trigger dsName handler
          (⟨SendOutcome.accepted, RecvOutcome.canceled recvCause, elapsed⟩ : DispatchEnv St) m l).log.doneLogs
        = l.doneLogs) :=
  ⟨⟨rfl, rfl⟩, ⟨rfl, rfl⟩⟩

/-- C5: two runtime hosts compare equal exactly when their data sources are
duplicate declarations (`is_duplicate_of`); the comparison reads nothing
but the data sources — replacing the host-function table, the queue
handle, the capability table or the metrics handle of either host leaves
the comparison unchanged, and so does any change to an offchain data
source's mutable `done_at` execution state. -/
theorem runtimeHost_eq_iff_duplicate (a b : RuntimeHost) :
    ((RuntimeHost.eq a b = true) ↔
        a.data_source.is_duplicate_of b.data_source = true)
  ∧ (∀ (fns fns2 : List HostFn) (snd snd2 met met2 : Nat) (he he2 : HostExports),
      RuntimeHost.eq
          { a with host_fns := fns, mapping_request_sender := snd,
                   host_exports := he, metrics := met }
          { b with host_fns := fns2, mapping_request_sender := snd2,
                   host_exports := he2, metrics := met2 }
        = RuntimeHost.eq a b)
  ∧ (∀ (dsa dsb : OffchainDataSource) (d d2 : Option Int),
      RuntimeHost.eq
          { a with data_source := DataSource.offchain (dsa.set_done_at d) }
          { b with data_source := DataSource.offchain (dsb.set_done_at d2) }
        = RuntimeHost.eq
            { a with data_source := DataSource.offchain dsa }
            { b with data_source := DataSource.offchain dsb }) :=
  ⟨Iff.rfl, fun _ _ _ _ _ _ _ _ => rfl, fun _ _ _ _ => rfl⟩

/-- C6: on an offchain host, `set_done_at (some 5)` followed by `done_at`
returns `some 5`; on an onchain host `done_at` is `none` and `set_done_at`
is a no-op, so `done_at` stays `none` after any sequence of `set_done_at`
calls. -/
theorem doneAt_offchain_tracks_onchain_none (h : RuntimeHost) :
    (∀ ds : OffchainDataSource, h.data_source = DataSource.offchain ds →
        (h.set_done_at (some 5)).done_at = some 5)
  ∧ (∀ ds : OnchainDataSource, h.data_source = DataSource.onchain ds →
        h.done_at = none
      ∧ ∀ blocks : List (Option Int),
          (blocks.foldl RuntimeHost.set_done_at h).done_at = none) := by
  constructor
  · intro ds hds
    simp [RuntimeHost.set_done_at, RuntimeHost.done_at, hds,
      OffchainDataSource.set_done_at, OffchainDataSource.done_at]
  · intro ds hds
    have hset : ∀ b : Option Int, h.set_done_at b = h := by
      intro b
      simp [RuntimeHost.set_done_at, hds]
    refine ⟨by simp [RuntimeHost.done_at, hds], ?_⟩
    intro blocks
    have hfold : blocks.foldl RuntimeHost.set_done_at h = h := by
      induction blocks with
      | nil => rfl
      | cons b bs ih => simp [List.foldl_cons, hset, ih]
    simp [hfold, RuntimeHost.done_at, hds]

/-- Witness for C6 at concrete hosts: an offchain host round-trips
`some 5`, and an onchain host stays at `none` through a sequence of
`set_done_at` calls. -/
theorem doneAt_offchain_tracks_onchain_none_witness :
    ((sampleOffchainHost.set_done_at (some 5)).done_at = some 5)
  ∧ (([some 5, none, some 7].foldl RuntimeHost.set_done_at
        sampleOnchainHost).done_at = none) :=
  ⟨(doneAt_offchain_tracks_onchain_none sampleOffchainHost).1 _ rfl,
   ((doneAt_offchain_tracks_onchain_none sampleOnchainHost).2 _ rfl).2 _⟩

/-- C7: `RuntimeHostBuilder::build` (through `RuntimeHost::new`) fails iff
the data source is onchain and the runtime adapter's `host_fns` rejects its
declaration; for an offchain data source it always succeeds and the host is
constructed with an empty host-function set. -/
theorem build_fails_iff_adapter_rejects
    (adapter : OnchainDataSource → Except String (List HostFn))
    (bus : Option Nat) (net sub : String) (ds : DataSource)
    (sender met : Nat) :
    ((∃ e, RuntimeHostBuilder.build adapter bus net sub ds sender met
        = Except.error e)
      ↔ ∃ o e, ds = DataSource.onchain o ∧ adapter o = Except.error e)
  ∧ (∀ o : OffchainDataSource, ds = DataSource.offchain o →
      RuntimeHostBuilder.build adapter bus net sub ds sender met
        = Except.ok ⟨[], ds, sender, ⟨sub, net, bus⟩, met⟩) := by
  refine ⟨⟨?_, ?_⟩, ?_⟩
  · intro ⟨e, he⟩
    cases ds with
    | offchain o =>
        simp [RuntimeHostBuilder.build, RuntimeHost.new, DataSource.as_onchain,
          Except.map] at he
    | onchain o =>
        cases hadapter : adapter o with
        | ok fns =>
            simp [RuntimeHostBuilder.build, RuntimeHost.new, DataSource.as_onchain,
              hadapter, Except.map] at he
        | error e2 =>
            exact ⟨o, e2, rfl, hadapter⟩
  · rintro ⟨o, e, rfl, hadapter⟩
    refine ⟨e, ?_⟩
    simp [RuntimeHostBuilder.build, RuntimeHost.new, DataSource.as_onchain,
      hadapter, Except.map]
  · intro o hds
    subst hds
    rfl

/-- Witness for C7 at concrete inputs: building from an offchain data
source succeeds with an empty host-function set, and building from an
onchain data source whose declaration the adapter rejects fails. -/
theorem build_fails_iff_adapter_rejects_witness :
    (RuntimeHostBuilder.build (fun _ => Except.ok []) none "mainnet" "Qm"
        (DataSource.offchain ⟨"fileDataSource", 11, none, none⟩) 0 0
      = Except.ok ⟨[], DataSource.offchain ⟨"fileDataSource", 11, none, none⟩,
          0, ⟨"Qm", "mainnet", none⟩, 0⟩)
  ∧ (∃ e, RuntimeHostBuilder.build
        (fun _ => Except.error "unsupported call signature") none "mainnet" "Qm"
        (DataSource.onchain ⟨"Contract", some 3, 7⟩) 0 0
      = Except.error e) :=
  ⟨(build_fails_iff_adapter_rejects (fun _ => Except.ok []) none "mainnet" "Qm"
      (DataSource.offchain ⟨"fileDataSource", 11, none, none⟩) 0 0).2 _ rfl,
   (build_fails_iff_adapter_rejects
      (fun _ => Except.error "unsupported call signature") none "mainnet" "Qm"
      (DataSource.onchain ⟨"Contract", some 3, 7⟩) 0 0).1.mpr
     ⟨⟨"Contract", some 3, 7⟩, "unsupported call signature", rfl, rfl⟩⟩

/-- C8: `match_and_decode` is a pure pass-through to the data source's
matching rules: its result is exactly the matcher's result on the host's
data source — in particular it is `Ok none` whenever the trigger does not
apply — and, being a pure function of the host, it leaves the host's state
unchanged and introduces no failure outcome of its own. -/
theorem match_and_decode_pass_through {T B TW : Type}
    (matcher : DataSource → T → B → Except String (Option TW))
    (h : RuntimeHost) (t : T) (b : B) :
    RuntimeHost.match_and_decode matcher h t b = matcher h.data_source t b
  ∧ (matcher h.data_source t b = Except.ok none →
      RuntimeHost.match_and_decode matcher h t b = Except.ok none) :=
  ⟨rfl, fun hnone => hnone⟩

/-- Witness for C8 at a concrete matcher that never matches: the host
returns `Ok none`. -/
theorem match_and_decode_pass_through_witness :
    RuntimeHost.match_and_decode
        (fun _ (_ : Nat) (_ : Nat) => (Except.ok none : Except String (Option Nat)))
        sampleOnchainHost 0 0
      = Except.ok none :=
  (match_and_decode_pass_through
      (fun _ (_ : Nat) (_ : Nat) => (Except.ok none : Except String (Option Nat)))
      sampleOnchainHost 0 0).2 rfl

/-- C4: the worker produces exactly one response per submitted request, and
the responses correspond to the requests in submission order: the i-th
response is the execution of the i-th request against the sandbox state
reached by processing exactly the first i requests, in order.  (Across
different hosts no ordering is claimed — this statement is per queue.) -/
theorem workerRun_responses_in_submission_order {Sandbox Req Resp : Type}
    (exec : Sandbox → Req → Resp × Sandbox) (sb : Sandbox)
    (reqs : List Req) (i : Nat) :
    (workerRun exec sb reqs).length = reqs.length
  ∧ (workerRun exec sb reqs).get? i
      = (reqs.get? i).map fun r =>
          (exec (workerStateAfter exec sb (reqs.take i)) r).1 := by
  induction reqs generalizing sb i with
  | nil => exact ⟨rfl, by simp [workerRun]⟩
  | cons r rs ih =>
      refine ⟨by simpa [workerRun] using (ih (exec sb r).2 0).1, ?_⟩
      cases i with
      | zero => simp [workerRun, workerStateAfter]
      | succ j =>
          simpa [workerRun, workerStateAfter] using (ih (exec sb r).2 j).2

/-- C10: `get_bus_scheme` recognizes RabbitMQ exactly when the URI is
present and its longest leading run of word characters is exactly
`"amqp"`; `BusInitializer::new` returns no bus exactly when
`get_bus_scheme` returns `None`.  The concrete cases from the claim are
included: `"amqp://host"` yields a bus while `None`, `"amqps://host"`,
`"http://host"` and `"://x"` do not. -/
theorem get_bus_scheme_amqp_iff (uri : Option String) :
    ((get_bus_scheme uri = some BusScheme.rabbitMQ) ↔
        ∃ s, uri = some s ∧ leadingWordRun s = "amqp")
  ∧ ((BusInitializer.new uri).isNone ↔ (get_bus_scheme uri).isNone)
  ∧ get_bus_scheme (some "amqp://host") = some BusScheme.rabbitMQ
  ∧ get_bus_scheme none = none
  ∧ get_bus_scheme (some "amqps://host") = none
  ∧ get_bus_scheme (some "http://host") = none
  ∧ get_bus_scheme (some "://x") = none := by
  refine ⟨?_, ?_, by decide, rfl, by decide, by decide, by decide⟩
  · cases uri with
    | none => simp [get_bus_scheme]
    | some s =>
        simp only [get_bus_scheme, regexFindLeadingWordRun, Option.some.injEq]
        by_cases hempty : (leadingWordRun s).isEmpty
        · have hne : leadingWordRun s ≠ "amqp" := by
            intro hcontra
            rw [hcontra] at hempty
            exact absurd hempty (by decide)
          simp [hempty, hne]
        · by_cases hamqp : leadingWordRun s = "amqp"
          · simp [hempty, hamqp]
            decide
          · simp [hempty, hamqp]
  · cases hscheme : get_bus_scheme uri with
    | none => simp [BusInitializer.new, hscheme]
    | some sch =>
        cases sch
        simp [BusInitializer.new, hscheme]

end GraphNode
